import Mathlib

/-!
Verification of `homework.py` / `exceptions.py` (homework-check-bot).

The program is embedded shallowly: decoded JSON payloads are `JsonVal`
(Python `None` is `JsonVal.null`), the exception classes of the program are
`PyErr`, and the effectful boundary (the HTTP library, the body decoder, the
Telegram client, `time.time()`) is passed in explicitly as data
(`HttpOutcome`, `Delivery`, the `now` field of `IterEnv`).
-/

namespace HomeworkBot

/-- A JSON value as produced by the HTTP client's body decoder
(`response.json()`); Python `None` is `null`, a Python `dict` is `obj` with
its (unique-keyed) entries in insertion order. -/
inductive JsonVal : Type where
  | null : JsonVal
  | bool (b : Bool) : JsonVal
  | int (n : Int) : JsonVal
  | str (s : String) : JsonVal
  | arr (elems : List JsonVal) : JsonVal
  | obj (fields : List (String × JsonVal)) : JsonVal

/-- Python `dict` key lookup on a decoded JSON object: the value stored at the
key, if present. -/
def objLookup (fields : List (String × JsonVal)) (k : String) : Option JsonVal :=
  match fields with
  | [] => none
  | (k2, v) :: rest => if k2 = k then some v else objLookup rest k

/-- The result of Python `d.get(k)` (no default) as a Python value: the stored
value when the key is present, `None` when absent.  Consequently a key stored
with value `null` and an absent key are indistinguishable to `d.get(k)`. -/
def pyGet (fields : List (String × JsonVal)) (k : String) : JsonVal :=
  match objLookup fields k with
  | some v => v
  | none => JsonVal.null

/-- Python `type(x)` as it prints inside an f-string, for the TypeError
messages of `check_response`. -/
def pyTypeName : JsonVal → String
  | .null => "<class \'NoneType\'>"
  | .bool _ => "<class \'bool\'>"
  | .int _ => "<class \'int\'>"
  | .str _ => "<class \'str\'>"
  | .arr _ => "<class \'list\'>"
  | .obj _ => "<class \'dict\'>"

/-- The bare Python type name of a value, as it appears in an AttributeError
message such as `\'list\' object has no attribute \'get\'`. -/
def pyTypeShort : JsonVal → String
  | .null => "NoneType"
  | .bool _ => "bool"
  | .int _ => "int"
  | .str _ => "str"
  | .arr _ => "list"
  | .obj _ => "dict"

mutual

/-- Python `repr(x)` for a decoded JSON value (string escaping inside
reprs is not modelled; no string the program builds needs it). -/
def pyRepr : JsonVal → String
  | .null => "None"
  | .bool b => if b then "True" else "False"
  | .int n => toString n
  | .str s => "\'" ++ s ++ "\'"
  | .arr elems => "[" ++ String.intercalate ", " (pyReprList elems) ++ "]"
  | .obj fields => "\x7b" ++ String.intercalate ", " (pyReprFields fields) ++ "\x7d"

def pyReprList : List JsonVal → List String
  | [] => []
  | v :: rest => pyRepr v :: pyReprList rest

def pyReprFields : List (String × JsonVal) → List String
  | [] => []
  | (k, v) :: rest => ("\'" ++ k ++ "\': " ++ pyRepr v) :: pyReprFields rest

end

/-- Python `str(x)` as used by f-string interpolation: a string is shown
as-is, every other value through its repr. -/
def pyStr (v : JsonVal) : String :=
  match v with
  | .str s => s
  | _ => pyRepr v

/-- The exception classes the program can raise or catch, each carrying the
message its constructor was given (`exceptions.py` plus the built-in
TypeError, KeyError and AttributeError).  `telegramMessageError` and
`currentDateError` are the two subclasses of `NoMessageToTelegram`. -/
inductive PyErr : Type where
  | typeError (msg : String) : PyErr
  | keyError (msg : String) : PyErr
  | attributeError (msg : String) : PyErr
  | currentDateError (msg : String) : PyErr
  | telegramMessageError (msg : String) : PyErr
  | jsonError (msg : String) : PyErr
  | requestAPIError (msg : String) : PyErr
  deriving DecidableEq, Repr

/-- Python `str(error)` as interpolated into the loop's f-strings: `KeyError`
shows the repr of its argument (the message wrapped in quotes), every other
class here shows the message itself. -/
def pyStrErr : PyErr → String
  | .keyError m => "\'" ++ m ++ "\'"
  | .typeError m => m
  | .attributeError m => m
  | .currentDateError m => m
  | .telegramMessageError m => m
  | .jsonError m => m
  | .requestAPIError m => m

/-- The Python class name of an error, forgetting its message: two errors are
classified the same exactly when this agrees. -/
def errClassName : PyErr → String
  | .typeError _ => "TypeError"
  | .keyError _ => "KeyError"
  | .attributeError _ => "AttributeError"
  | .currentDateError _ => "CurrentDateError"
  | .telegramMessageError _ => "TelegramMessageError"
  | .jsonError _ => "JSONError"
  | .requestAPIError _ => "RequestAPIError"

/-- Whether `except NoMessageToTelegram` matches the error: exactly the two
subclasses `TelegramMessageError` and `CurrentDateError` from
`exceptions.py`. -/
def isNoMessageToTelegram : PyErr → Bool
  | .telegramMessageError _ => true
  | .currentDateError _ => true
  | _ => false

def ENDPOINT : String := "https://practicum.yandex.ru/api/user_api/homework_statuses/"

def RETRY_TIME : Nat := 600

/-- The fixed status-to-verdict mapping `HOMEWORK_VERDICTS` of homework.py. -/
def HOMEWORK_VERDICTS : List (String × String) :=
  [("approved", "Работа проверена: ревьюеру всё понравилось. Ура!"),
   ("reviewing", "Работа взята на проверку ревьюером."),
   ("rejected", "Работа проверена: у ревьюера есть замечания.")]

/-- Lookup in `HOMEWORK_VERDICTS`. -/
def verdictLookup (table : List (String × String)) (k : String) : Option String :=
  match table with
  | [] => none
  | (k2, v) :: rest => if k2 = k then some v else verdictLookup rest k

/-- Python `homework_status not in HOMEWORK_VERDICTS` combined with the
subsequent indexing `HOMEWORK_VERDICTS[homework_status]`.  Membership testing
hashes the candidate key, so an unhashable value — a list or a dict — raises
`TypeError: unhashable type`; a hashable value is a member only when it is a
string equal to one of the dict's keys (`None`, booleans and numbers are
hashable non-members). -/
def verdictFor : JsonVal → Except PyErr (Option String)
  | .str s => .ok (verdictLookup HOMEWORK_VERDICTS s)
  | .arr _ => .error (.typeError "unhashable type: \'list\'")
  | .obj _ => .error (.typeError "unhashable type: \'dict\'")
  | _ => .ok none

/-- `check_response` from homework.py: raises TypeError when the response is
not a dict; CurrentDateError when `response.get(\'current_date\')` is None
(key absent, or present with value null); KeyError when
`response.get(\'homeworks\')` is None; TypeError when the homeworks value is
not a list; otherwise returns the homeworks list. -/
def check_response (response : JsonVal) : Except PyErr (List JsonVal) :=
  match response with
  | .obj fields =>
    match pyGet fields "current_date" with
    | .null => .error (.currentDateError "В ответе API отсутствует ключ current_date")
    | _ =>
      match pyGet fields "homeworks" with
      | .null => .error (.keyError "В ответе API отсутствует ключ homework")
      | .arr homeworks => .ok homeworks
      | v => .error (.typeError
          ("В ответе API homework является " ++ pyTypeName v ++ " вместо list"))
  | v => .error (.typeError ("Ответ API возвращает " ++ pyTypeName v ++ " вместо dict"))

/-- `parse_status` from homework.py: reads `homework.get(\'homework_name\')`
and `homework.get(\'status\')`; raises KeyError when the name is None; then
evaluates `homework_status not in HOMEWORK_VERDICTS`, which raises TypeError
for an unhashable status, raises KeyError when the status is a hashable
non-key, and otherwise returns the notification string interpolating name and
verdict.  A non-dict argument raises AttributeError at the first `.get`
call. -/
def parse_status (homework : JsonVal) : Except PyErr String :=
  match homework with
  | .obj fields =>
    let homework_name := pyGet fields "homework_name"
    let homework_status := pyGet fields "status"
    match homework_name with
    | .null => .error (.keyError "В ответе API отсутствует ключ homework_name")
    | _ =>
      match verdictFor homework_status with
      | .error e => .error e
      | .ok (some verdict) =>
          .ok ("Изменился статус проверки работы \"" ++ pyStr homework_name ++ "\". " ++ verdict)
      | .ok none => .error (.keyError ("Статус " ++ pyStr homework_status ++ " не найден"))
  | v => .error (.attributeError
      ("\'" ++ pyTypeShort v ++ "\' object has no attribute \'get\'"))

/-- The body of an HTTP response as seen through `.json()`: either decoded
JSON, or the message of the `json.decoder.JSONDecodeError` the decoder
raised. -/
inductive JsonBody : Type where
  | decoded (v : JsonVal) : JsonBody
  | malformed (msg : String) : JsonBody

/-- The outcome of one `requests.get` call: either the transport raised a
`requests.exceptions.RequestException` (timeout, refused connection, DNS
failure, ...) with the given message, or a response arrived with the given
status code and body. -/
inductive HttpOutcome : Type where
  | transportError (msg : String) : HttpOutcome
  | response (status_code : Nat) (body : JsonBody) : HttpOutcome

/-- `get_api_answer` from homework.py, as a function of the HTTP outcome of
its single `requests.get` call.  For a non-OK status the code raises
`requests.HTTPError(message)`; `HTTPError` is a subclass of
`requests.exceptions.RequestException`, so that exception is caught by the
function's own first `except` clause and re-raised as `RequestAPIError` with
the HTTPError's text appended, exactly like a transport failure.  A body that
fails to decode raises `json.decoder.JSONDecodeError`, re-raised as
`JSONError` by the second clause. -/
def get_api_answer (httpOutcome : HttpOutcome) : Except PyErr JsonVal :=
  match httpOutcome with
  | .transportError msg =>
      .error (.requestAPIError ("Ошибка при запросе к основному API: " ++ msg))
  | .response status_code body =>
      if status_code ≠ 200 then
        .error (.requestAPIError ("Ошибка при запросе к основному API: " ++
          "Эндпоинт " ++ ENDPOINT ++ " недоступен." ++ "Код ответа: " ++ toString status_code))
      else
        match body with
        | .decoded v => .ok v
        | .malformed msg =>
            .error (.jsonError ("Ошибка при декодировании JSON: " ++ msg))

/-- The Telegram transport's behavior for one `bot.send_message` call:
`none` means delivered, `some errText` means the client raised a
`TelegramError` whose `str` is `errText`. -/
abbrev Delivery := Option String

/-- `send_message` from homework.py, as a function of the transport's
behavior: a `TelegramError` from the client is re-raised as
`TelegramMessageError` (a `NoMessageToTelegram` subclass); on success the
function just logs. -/
def send_message (delivery : Delivery) (message : String) : Except PyErr Unit :=
  match delivery with
  | none => .ok ()
  | some errText =>
      .error (.telegramMessageError ("Ошибка при отправке сообщения: " ++ errText))

/-- A Python exception object: its class-and-message payload together with an
object identity.  Every `raise SomeError(...)` the program executes creates a
fresh object, so exceptions raised in different loop iterations always have
different identities. -/
structure ErrObj where
  id : Nat
  err : PyErr

/-- The loop's comparison `last_error != error`.  `BaseException` does not
define `__eq__`, so `!=` on exception objects is negated object identity;
`None != error` is `True`. -/
def pyNeLast (last_error : Option ErrObj) (error : ErrObj) : Bool :=
  match last_error with
  | none => true
  | some l => l.id != error.id

/-- The mutable state `main` carries across loop iterations:
`current_timestamp` (the raw Python value assigned on line 132, initially
`int(time.time())`) and `last_error` (initially `None`). -/
structure LoopState where
  current_timestamp : JsonVal
  last_error : Option ErrObj

/-- The environment of one loop iteration: the outcome of its `requests.get`
call, the value `int(time.time())` would return if consulted, the Telegram
transport's behavior for a `bot.send_message` call, and the identity of the
exception object raised in this iteration, if one is (fresh per raise). -/
structure IterEnv where
  http : HttpOutcome
  now : Int
  delivery : Delivery
  errId : Nat

/-- The `try` block of one iteration of `main`'s loop (homework.py lines
130-135): fetch; reassign `current_timestamp` to
`response.get(\'current_date\', int(time.time()))` — an AttributeError when
the response is not a dict, since only dicts have `.get`; validate; then
format and send the first homework, if any.  Returns the cursor after the
block (the line-132 assignment persists even when a later line raises), the
messages `send_message` was invoked with, and the exception the block raised,
if any. -/
def tryBody (cursor : JsonVal) (env : IterEnv) : JsonVal × List String × Option PyErr :=
  match get_api_answer env.http with
  | .error e => (cursor, [], some e)
  | .ok response =>
    match response with
    | .obj fields =>
      let cursor2 := match objLookup fields "current_date" with
        | some v => v
        | none => JsonVal.int env.now
      match check_response response with
      | .error e => (cursor2, [], some e)
      | .ok homeworks =>
        match homeworks with
        | [] => (cursor2, [], none)
        | hw :: _ =>
          match parse_status hw with
          | .error e => (cursor2, [], some e)
          | .ok msg =>
            match send_message env.delivery msg with
            | .ok _ => (cursor2, [msg], none)
            | .error e => (cursor2, [msg], some e)
    | v => (cursor, [], some (.attributeError
        ("\'" ++ pyTypeShort v ++ "\' object has no attribute \'get\'")))

/-- One full iteration of `main`'s `while True` loop: the `try` block plus the
two `except` clauses (homework.py lines 130-145).  Returns the next state, all
messages `send_message` was invoked with during the iteration, and whether an
exception escaped the iteration.  The `except NoMessageToTelegram` clause only
logs.  The `except Exception` clause logs, then — when `last_error != error` —
calls `send_message` and updates `last_error`; a `TelegramMessageError` raised
by that call happens inside the handler, is caught by neither clause, and
propagates out of the loop after the `finally` sleep, terminating `main`
(then `last_error` was not updated, line 143 being unreached). -/
def loopIter (st : LoopState) (env : IterEnv) : LoopState × List String × Bool :=
  match tryBody st.current_timestamp env with
  | (cursor2, sent, none) => (⟨cursor2, st.last_error⟩, sent, false)
  | (cursor2, sent, some e) =>
    if isNoMessageToTelegram e then
      (⟨cursor2, st.last_error⟩, sent, false)
    else
      let message := "Сбой в работе программы: " ++ pyStrErr e
      let error : ErrObj := ⟨env.errId, e⟩
      if pyNeLast st.last_error error then
        match send_message env.delivery message with
        | .ok _ => (⟨cursor2, some error⟩, sent ++ [message], false)
        | .error _ => (⟨cursor2, st.last_error⟩, sent ++ [message], true)
      else
        (⟨cursor2, st.last_error⟩, sent, false)

/-- Successive iterations of `main`'s loop under a list of per-iteration
environments, accumulating every `send_message` invocation; stops early when
an exception escapes an iteration, since that terminates `main`. -/
def runIters (st : LoopState) (envs : List IterEnv) : LoopState × List String × Bool :=
  match envs with
  | [] => (st, [], false)
  | env :: rest =>
    match loopIter st env with
    | (st2, sent, true) => (st2, sent, true)
    | (st2, sent, false) =>
      match runIters st2 rest with
      | (st3, sent2, crashed) => (st3, sent ++ sent2, crashed)

/-! ## Helper lemmas -/

/-- The cursor after a full iteration is the cursor the `try` block left. -/
theorem loopIter_cursor (st : LoopState) (env : IterEnv) :
    (loopIter st env).1.current_timestamp = (tryBody st.current_timestamp env).1 := by
  unfold loopIter
  rcases h : tryBody st.current_timestamp env with ⟨c2, sent, e⟩
  cases e with
  | none => rfl
  | some e =>
    simp only []
    split
    · rfl
    · split
      · split <;> rfl
      · rfl

/-- With an OK, well-decoded dict response, the `try` block's cursor is the
stored `current_date` value if the key is present, else `int(time.time())`. -/
theorem tryBody_cursor_obj (cursor : JsonVal) (env : IterEnv)
    (fields : List (String × JsonVal))
    (hresp : env.http = HttpOutcome.response 200 (JsonBody.decoded (JsonVal.obj fields))) :
    (tryBody cursor env).1 =
      match objLookup fields "current_date" with
      | some v => v
      | none => JsonVal.int env.now := by
  unfold tryBody
  rw [hresp]
  show (match check_response (JsonVal.obj fields) with
        | _ => _ : JsonVal × List String × Option PyErr).1 = _
  repeat' first
  | rfl
  | split

/-! ## Claim theorems -/

/-- C1: the spec claims that when two consecutive loop iterations raise errors
with identical string representation, the Notifier is invoked at most once
across the two iterations.  On the code it is invoked in both iterations:
`last_error != error` compares exception objects, which `BaseException`
compares by identity, and each iteration raises a fresh object, so the
deduplication branch never suppresses a notification.  Here both iterations
hit the same transport failure and both produce a chat notification. -/
theorem C1_dedup_never_suppresses :
    (runIters ⟨JsonVal.int 0, none⟩
      [⟨HttpOutcome.transportError "timeout", 0, none, 0⟩,
       ⟨HttpOutcome.transportError "timeout", 0, none, 1⟩]).2.1 =
      ["Сбой в работе программы: Ошибка при запросе к основному API: timeout",
       "Сбой в работе программы: Ошибка при запросе к основному API: timeout"] := rfl

/-- C2 (counterexample): an iteration whose fetched response is an OK-decoded
dict without the `current_date` key, starting from cursor 0 while
`int(time.time())` is 555.  The claim says the cursor is left unchanged at 0;
the code sets it to 555, because line 132 passes `int(time.time())` as the
`.get` default instead of keeping the prior value. -/
theorem C2_cursor_not_kept :
    (loopIter ⟨JsonVal.int 0, none⟩
       ⟨HttpOutcome.response 200 (JsonBody.decoded (JsonVal.obj [("homeworks", JsonVal.arr [])])),
        555, none, 0⟩).1.current_timestamp = JsonVal.int 555 ∧
    JsonVal.int 555 ≠ JsonVal.int 0 := by
  refine ⟨rfl, fun h => ?_⟩
  injection h with h
  omega

/-- C2 (amended): when the fetched response is an OK-decoded dict, the cursor
after the iteration equals the stored `current_date` value when that key is
present; when the key is absent the cursor is set to the `int(time.time())`
of that iteration (the prior cursor is not kept). -/
theorem C2_cursor_update (st : LoopState) (env : IterEnv)
    (fields : List (String × JsonVal))
    (hresp : env.http = HttpOutcome.response 200 (JsonBody.decoded (JsonVal.obj fields))) :
    (objLookup fields "current_date" = none →
        (loopIter st env).1.current_timestamp = JsonVal.int env.now) ∧
    ∀ v, objLookup fields "current_date" = some v →
        (loopIter st env).1.current_timestamp = v := by
  have hc := loopIter_cursor st env
  have ht := tryBody_cursor_obj st.current_timestamp env fields hresp
  constructor
  · intro habs
    rw [hc, ht, habs]
  · intro v hv
    rw [hc, ht, hv]

/-- Witness for C2 (amended) at a concrete response without `current_date`. -/
theorem C2_cursor_update_witness :
    (loopIter ⟨JsonVal.int 0, none⟩
       ⟨HttpOutcome.response 200 (JsonBody.decoded (JsonVal.obj [("homeworks", JsonVal.arr [])])),
        555, none, 0⟩).1.current_timestamp = JsonVal.int 555 :=
  (C2_cursor_update ⟨JsonVal.int 0, none⟩
    ⟨HttpOutcome.response 200 (JsonBody.decoded (JsonVal.obj [("homeworks", JsonVal.arr [])])),
     555, none, 0⟩
    [("homeworks", JsonVal.arr [])] rfl).1 rfl

/-- C3: end-to-end scenarios.  For the response with one approved homework
named hw1 and `current_date` 1000, the Notifier is invoked with exactly the
expected string and the cursor becomes 1000; for the response with an empty
homeworks list and `current_date` 1000, the Notifier is not invoked, the try
block raises no error, and the cursor becomes 1000. -/
theorem C3_end_to_end_scenarios :
    (loopIter ⟨JsonVal.int 0, none⟩
       ⟨HttpOutcome.response 200 (JsonBody.decoded (JsonVal.obj
          [("homeworks", JsonVal.arr
             [JsonVal.obj [("homework_name", JsonVal.str "hw1"), ("status", JsonVal.str "approved")]]),
           ("current_date", JsonVal.int 1000)])), 7, none, 0⟩) =
      (⟨JsonVal.int 1000, none⟩,
       ["Изменился статус проверки работы \"hw1\". Работа проверена: ревьюеру всё понравилось. Ура!"],
       false) ∧
    (loopIter ⟨JsonVal.int 0, none⟩
       ⟨HttpOutcome.response 200 (JsonBody.decoded (JsonVal.obj
          [("homeworks", JsonVal.arr []), ("current_date", JsonVal.int 1000)])), 7, none, 0⟩) =
      (⟨JsonVal.int 1000, none⟩, [], false) ∧
    (tryBody (JsonVal.int 0)
       ⟨HttpOutcome.response 200 (JsonBody.decoded (JsonVal.obj
          [("homeworks", JsonVal.arr []), ("current_date", JsonVal.int 1000)])), 7, none, 0⟩).2.2 =
      none :=
  ⟨rfl, rfl, rfl⟩

/-- C7: the spec claims that when notifying the chat about a notifiable error
itself fails, the secondary delivery failure is only logged and the loop
proceeds to the next iteration.  On the code, the TelegramMessageError raised
by the `send_message` call inside the `except Exception` handler is caught by
neither clause and escapes the loop, terminating `main` (third component
`true`); `last_error` is also left unchanged since line 143 is never
reached. -/
theorem C7_secondary_failure_escapes :
    (loopIter ⟨JsonVal.int 0, none⟩
       ⟨HttpOutcome.transportError "timeout", 0, some "chat unreachable", 0⟩) =
      (⟨JsonVal.int 0, none⟩,
       ["Сбой в работе программы: Ошибка при запросе к основному API: timeout"],
       true) := rfl

/-- C8 (counterexample): a fetch whose HTTP status is 500 raises a
RequestAPIError — the same exception class a transport-level failure raises —
because the HTTPError raised for the non-OK status is itself a
RequestException and is caught and re-wrapped by the function's first except
clause.  So the non-OK-status error is not classified distinctly from the
request-failed error, contrary to the claim. -/
theorem C8_same_class_counterexample :
    get_api_answer (HttpOutcome.response 500 (JsonBody.decoded JsonVal.null)) =
      Except.error (PyErr.requestAPIError ("Ошибка при запросе к основному API: " ++
        "Эндпоинт " ++ ENDPOINT ++ " недоступен." ++ "Код ответа: " ++ toString 500)) ∧
    get_api_answer (HttpOutcome.transportError "timeout") =
      Except.error (PyErr.requestAPIError "Ошибка при запросе к основному API: timeout") ∧
    errClassName (PyErr.requestAPIError ("Ошибка при запросе к основному API: " ++
        "Эндпоинт " ++ ENDPOINT ++ " недоступен." ++ "Код ответа: " ++ toString 500)) =
      errClassName (PyErr.requestAPIError "Ошибка при запросе к основному API: timeout") :=
  ⟨rfl, rfl, rfl⟩

/-- C8 (amended): for every fetch whose HTTP status is not OK, `get_api_answer`
raises a RequestAPIError whose message carries the endpoint URL and the status
code; this is the same exception class as the transport-level request-failed
error (not a distinct one), though still distinct from the JSONError decode
failure. -/
theorem C8_non_ok_classification (status_code : Nat) (body : JsonBody)
    (transport_msg : String) (h : status_code ≠ 200) :
    get_api_answer (HttpOutcome.response status_code body) =
      Except.error (PyErr.requestAPIError ("Ошибка при запросе к основному API: " ++
        "Эндпоинт " ++ ENDPOINT ++ " недоступен." ++ "Код ответа: " ++ toString status_code)) ∧
    (∃ tmsg, get_api_answer (HttpOutcome.transportError transport_msg) =
        Except.error (PyErr.requestAPIError tmsg)) ∧
    ∀ m, Except.error (PyErr.requestAPIError m) ≠
        (Except.error (PyErr.jsonError m) : Except PyErr JsonVal) := by
  refine ⟨?_, ⟨"Ошибка при запросе к основному API: " ++ transport_msg, rfl⟩, ?_⟩
  · simp only [get_api_answer]
    rw [if_pos h]
  · intro m hcontra
    injection hcontra with hcontra
    cases hcontra

/-- Witness for C8 (amended) at status code 500. -/
theorem C8_non_ok_classification_witness :
    get_api_answer (HttpOutcome.response 500 (JsonBody.decoded JsonVal.null)) =
      Except.error (PyErr.requestAPIError ("Ошибка при запросе к основному API: " ++
        "Эндпоинт " ++ ENDPOINT ++ " недоступен." ++ "Код ответа: " ++ toString 500)) ∧
    (∃ tmsg, get_api_answer (HttpOutcome.transportError "connection refused") =
        Except.error (PyErr.requestAPIError tmsg)) ∧
    ∀ m, Except.error (PyErr.requestAPIError m) ≠
        (Except.error (PyErr.jsonError m) : Except PyErr JsonVal) :=
  C8_non_ok_classification 500 (JsonBody.decoded JsonVal.null) "connection refused"
    (by decide)

/-- Unfolding of `check_response` on a dict argument. -/
theorem check_response_obj (fields : List (String × JsonVal)) :
    check_response (JsonVal.obj fields) =
      match pyGet fields "current_date" with
      | JsonVal.null =>
          Except.error (PyErr.currentDateError "В ответе API отсутствует ключ current_date")
      | _ =>
        match pyGet fields "homeworks" with
        | JsonVal.null => Except.error (PyErr.keyError "В ответе API отсутствует ключ homework")
        | JsonVal.arr homeworks => Except.ok homeworks
        | v => Except.error (PyErr.typeError
            ("В ответе API homework является " ++ pyTypeName v ++ " вместо list")) := rfl

/-- Unfolding of `check_response` on a dict argument past the cursor check. -/
theorem check_response_obj_cd (fields : List (String × JsonVal))
    (hcd : pyGet fields "current_date" ≠ JsonVal.null) :
    check_response (JsonVal.obj fields) =
      match pyGet fields "homeworks" with
      | JsonVal.null => Except.error (PyErr.keyError "В ответе API отсутствует ключ homework")
      | JsonVal.arr homeworks => Except.ok homeworks
      | v => Except.error (PyErr.typeError
          ("В ответе API homework является " ++ pyTypeName v ++ " вместо list")) := by
  rw [check_response_obj]
  rcases h : pyGet fields "current_date" <;> first | exact absurd h hcd | rfl

/-- C4 (counterexample): a response where the `current_date` key is present
but stores null.  The claim, treating only absence of the key as the
missing-cursor case, implies this response (its homeworks list being present)
has its homeworks returned; the code fails with the missing-cursor error,
because line 88 tests `response.get(\'current_date\') is None`, which also
holds when the key is present with value null. -/
theorem C4_null_cursor_counterexample :
    objLookup [("current_date", JsonVal.null), ("homeworks", JsonVal.arr [])] "current_date" =
      some JsonVal.null ∧
    check_response (JsonVal.obj [("current_date", JsonVal.null), ("homeworks", JsonVal.arr [])]) =
      Except.error (PyErr.currentDateError "В ответе API отсутствует ключ current_date") :=
  ⟨rfl, rfl⟩

/-- C4 (amended): classification of `check_response` over every input.  A
non-dict fails with the wrong-type TypeError.  Otherwise, when
`response.get` of `current_date` is None — the key absent, or present with
value null — it fails with the distinct missing-cursor CurrentDateError;
otherwise, when `response.get` of `homeworks` is None (absent or null) it
fails with the missing-key KeyError; otherwise a non-list homeworks value
fails with the wrong-type TypeError, and a list value is returned
unchanged. -/
theorem C4_validator_classification (response : JsonVal) :
    ((∀ fields, response ≠ JsonVal.obj fields) →
        check_response response =
          Except.error (PyErr.typeError
            ("Ответ API возвращает " ++ pyTypeName response ++ " вместо dict"))) ∧
    ∀ fields, response = JsonVal.obj fields →
      (pyGet fields "current_date" = JsonVal.null →
          check_response response =
            Except.error (PyErr.currentDateError "В ответе API отсутствует ключ current_date")) ∧
      (pyGet fields "current_date" ≠ JsonVal.null →
        (pyGet fields "homeworks" = JsonVal.null →
            check_response response =
              Except.error (PyErr.keyError "В ответе API отсутствует ключ homework")) ∧
        (∀ hws, pyGet fields "homeworks" = JsonVal.arr hws →
            check_response response = Except.ok hws) ∧
        (pyGet fields "homeworks" ≠ JsonVal.null →
            (∀ hws, pyGet fields "homeworks" ≠ JsonVal.arr hws) →
            check_response response =
              Except.error (PyErr.typeError
                ("В ответе API homework является " ++
                  pyTypeName (pyGet fields "homeworks") ++ " вместо list")))) := by
  constructor
  · intro hnot
    cases response <;> first | rfl | exact absurd rfl (hnot _)
  · intro fields hf
    subst hf
    refine ⟨fun hcd => ?_, fun hcd => ⟨fun hhw => ?_, fun hws hhw => ?_, fun hhw hnarr => ?_⟩⟩
    · rw [check_response_obj, hcd]
    · rw [check_response_obj_cd fields hcd, hhw]
    · rw [check_response_obj_cd fields hcd, hhw]
    · rw [check_response_obj_cd fields hcd]
      rcases h : pyGet fields "homeworks" <;>
        first
        | exact absurd h hhw
        | exact absurd h (hnarr _)
        | rfl

/-- Witness for C4 (amended): a response with an integer cursor and an empty
homeworks list passes validation and yields the empty list. -/
theorem C4_validator_classification_witness :
    check_response (JsonVal.obj [("current_date", JsonVal.int 1), ("homeworks", JsonVal.arr [])]) =
      Except.ok [] :=
  (((C4_validator_classification
        (JsonVal.obj [("current_date", JsonVal.int 1), ("homeworks", JsonVal.arr [])])).2
      [("current_date", JsonVal.int 1), ("homeworks", JsonVal.arr [])] rfl).2
    (fun h => nomatch h)).2.1 [] rfl

/-- Unfolding of `parse_status` on a dict argument. -/
theorem parse_status_obj (fields : List (String × JsonVal)) :
    parse_status (JsonVal.obj fields) =
      match pyGet fields "homework_name" with
      | JsonVal.null => Except.error (PyErr.keyError "В ответе API отсутствует ключ homework_name")
      | _ =>
        match verdictFor (pyGet fields "status") with
        | .error e => Except.error e
        | .ok (some verdict) => Except.ok ("Изменился статус проверки работы \"" ++
            pyStr (pyGet fields "homework_name") ++ "\". " ++ verdict)
        | .ok none => Except.error (PyErr.keyError
            ("Статус " ++ pyStr (pyGet fields "status") ++ " не найден")) := rfl

/-- Unfolding of `parse_status` on a dict argument past the name check. -/
theorem parse_status_obj_named (fields : List (String × JsonVal))
    (hn : pyGet fields "homework_name" ≠ JsonVal.null) :
    parse_status (JsonVal.obj fields) =
      match verdictFor (pyGet fields "status") with
      | .error e => Except.error e
      | .ok (some verdict) => Except.ok ("Изменился статус проверки работы \"" ++
          pyStr (pyGet fields "homework_name") ++ "\". " ++ verdict)
      | .ok none => Except.error (PyErr.keyError
          ("Статус " ++ pyStr (pyGet fields "status") ++ " не найден")) := by
  rw [parse_status_obj]
  rcases h : pyGet fields "homework_name" <;> first | exact absurd h hn | rfl

/-- C5 (counterexample): a homework record whose `homework_name` key is
present but stores null, with status approved.  The claim, treating only
absence of the name as the missing-name case, implies this record is
formatted; the code fails with the missing-name error, because line 104 tests
`homework.get(\'homework_name\') is None`, which also holds when the key is
present with value null. -/
theorem C5_null_name_counterexample :
    objLookup [("homework_name", JsonVal.null), ("status", JsonVal.str "approved")]
        "homework_name" = some JsonVal.null ∧
    parse_status (JsonVal.obj [("homework_name", JsonVal.null), ("status", JsonVal.str "approved")]) =
      Except.error (PyErr.keyError "В ответе API отсутствует ключ homework_name") :=
  ⟨rfl, rfl⟩

/-- C5 (amended): classification of `parse_status` over every homework dict.
When `homework.get` of `homework_name` is None — absent, or present with
value null — it fails with the missing-name KeyError.  Otherwise, when the
status value is one of the HOMEWORK_VERDICTS keys the result is the
notification string carrying the interpolated name and the exact verdict for
that status; when the status value is unhashable — a JSON array or object —
the membership test of line 106 raises the unhashable-type TypeError; and
when it is any hashable non-key (absent, null, a boolean, a number, or a
string outside the fixed set) it fails with the unknown-status KeyError. -/
theorem C5_formatter_classification (fields : List (String × JsonVal)) :
    (pyGet fields "homework_name" = JsonVal.null →
        parse_status (JsonVal.obj fields) =
          Except.error (PyErr.keyError "В ответе API отсутствует ключ homework_name")) ∧
    (pyGet fields "homework_name" ≠ JsonVal.null →
      (∀ s verdict, pyGet fields "status" = JsonVal.str s →
          verdictLookup HOMEWORK_VERDICTS s = some verdict →
          parse_status (JsonVal.obj fields) =
            Except.ok ("Изменился статус проверки работы \"" ++
              pyStr (pyGet fields "homework_name") ++ "\". " ++ verdict)) ∧
      (∀ elems, pyGet fields "status" = JsonVal.arr elems →
          parse_status (JsonVal.obj fields) =
            Except.error (PyErr.typeError "unhashable type: \'list\'")) ∧
      (∀ statusFields, pyGet fields "status" = JsonVal.obj statusFields →
          parse_status (JsonVal.obj fields) =
            Except.error (PyErr.typeError "unhashable type: \'dict\'")) ∧
      ((∀ s, pyGet fields "status" = JsonVal.str s →
          verdictLookup HOMEWORK_VERDICTS s = none) →
       (∀ elems, pyGet fields "status" ≠ JsonVal.arr elems) →
       (∀ statusFields, pyGet fields "status" ≠ JsonVal.obj statusFields) →
          parse_status (JsonVal.obj fields) =
            Except.error (PyErr.keyError
              ("Статус " ++ pyStr (pyGet fields "status") ++ " не найден")))) := by
  refine ⟨fun hname => ?_, fun hname =>
    ⟨fun s verdict hst hv => ?_, fun elems helems => ?_, fun statusFields hsf => ?_,
     fun hnone harr hobj => ?_⟩⟩
  · rw [parse_status_obj, hname]
  · rw [parse_status_obj_named fields hname, hst]
    simp only [verdictFor]
    rw [hv]
  · rw [parse_status_obj_named fields hname, helems]
    rfl
  · rw [parse_status_obj_named fields hname, hsf]
    rfl
  · rw [parse_status_obj_named fields hname]
    rcases h : pyGet fields "status" with _ | b | n | s | a | o
    · rfl
    · rfl
    · rfl
    · simp only [verdictFor]
      rw [hnone s h]
    · exact absurd h (harr a)
    · exact absurd h (hobj o)

/-- Witness for C5 (amended): a record named hw2 with status rejected formats
to the notification string carrying the rejected verdict. -/
theorem C5_formatter_classification_witness :
    parse_status (JsonVal.obj [("homework_name", JsonVal.str "hw2"), ("status", JsonVal.str "rejected")]) =
      Except.ok ("Изменился статус проверки работы \"" ++
        pyStr (pyGet [("homework_name", JsonVal.str "hw2"), ("status", JsonVal.str "rejected")]
          "homework_name") ++ "\". " ++ "Работа проверена: у ревьюера есть замечания.") :=
  ((C5_formatter_classification
      [("homework_name", JsonVal.str "hw2"), ("status", JsonVal.str "rejected")]).2
    (fun h => nomatch h)).1 "rejected" "Работа проверена: у ревьюера есть замечания." rfl rfl

/-- C6: an iteration whose try block raises a non-notifiable error — one the
`except NoMessageToTelegram` clause matches, i.e. a TelegramMessageError
delivery failure or the CurrentDateError missing-cursor error — is only
logged: the handler invokes send_message for nothing, `last_error` is left
unchanged, and nothing escapes the iteration. -/
theorem C6_nonnotifiable_logged_only (st : LoopState) (env : IterEnv)
    (cursor2 : JsonVal) (sent : List String) (e : PyErr)
    (h : tryBody st.current_timestamp env = (cursor2, sent, some e))
    (hn : isNoMessageToTelegram e = true) :
    loopIter st env = (⟨cursor2, st.last_error⟩, sent, false) := by
  unfold loopIter
  rw [h]
  simp [hn]

/-- Witness for C6 at a response whose `current_date` is absent: the
CurrentDateError is swallowed, no message is sent, `last_error` stays None. -/
theorem C6_nonnotifiable_logged_only_witness :
    loopIter ⟨JsonVal.int 0, none⟩
      ⟨HttpOutcome.response 200 (JsonBody.decoded (JsonVal.obj [("homeworks", JsonVal.arr [])])),
       555, none, 3⟩ =
      (⟨JsonVal.int 555, none⟩, [], false) :=
  C6_nonnotifiable_logged_only ⟨JsonVal.int 0, none⟩
    ⟨HttpOutcome.response 200 (JsonBody.decoded (JsonVal.obj [("homeworks", JsonVal.arr [])])),
     555, none, 3⟩
    (JsonVal.int 555) []
    (PyErr.currentDateError "В ответе API отсутствует ключ current_date") rfl rfl

/-- C9: the Validator is deterministic and does not mutate: whenever
`check_response` succeeds with a list, the same call on the same response
yields that same list, and the list is exactly the value stored under the
homeworks key of the (unchanged) response. -/
theorem C9_validator_idempotent (response : JsonVal) (hws : List JsonVal)
    (h : check_response response = Except.ok hws) :
    check_response response = Except.ok hws ∧
    ∃ fields, response = JsonVal.obj fields ∧
      pyGet fields "homeworks" = JsonVal.arr hws := by
  refine ⟨h, ?_⟩
  cases response
  case obj fields =>
    refine ⟨fields, rfl, ?_⟩
    rw [check_response_obj] at h
    rcases hcd : pyGet fields "current_date" <;> rw [hcd] at h <;> simp at h
    all_goals (rcases hh : pyGet fields "homeworks" <;> rw [hh] at h <;> simp at h <;> rw [h])
  all_goals simp [check_response] at h

/-- Witness for C9 at a valid response with one homework record. -/
theorem C9_validator_idempotent_witness :
    check_response (JsonVal.obj
        [("current_date", JsonVal.int 1), ("homeworks", JsonVal.arr [JsonVal.str "x"])]) =
      Except.ok [JsonVal.str "x"] ∧
    ∃ fields, JsonVal.obj
        [("current_date", JsonVal.int 1), ("homeworks", JsonVal.arr [JsonVal.str "x"])] =
        JsonVal.obj fields ∧
      pyGet fields "homeworks" = JsonVal.arr [JsonVal.str "x"] :=
  C9_validator_idempotent
    (JsonVal.obj [("current_date", JsonVal.int 1), ("homeworks", JsonVal.arr [JsonVal.str "x"])])
    [JsonVal.str "x"] rfl

/-- C10: when the fetched response decodes to a non-dict value, line 132's
`response.get` call raises AttributeError before `check_response` is ever
invoked: the try block leaves the cursor unchanged and raises the
attribute-access failure, which is not a TypeError (so not the Validator's
wrong-type error); that AttributeError is notifiable, so with a fresh
`last_error` and a working transport the handler notifies exactly it. -/
theorem C10_non_dict_attribute_error (st : LoopState) (env : IterEnv) (v : JsonVal)
    (hhttp : env.http = HttpOutcome.response 200 (JsonBody.decoded v))
    (hv : ∀ fields, v ≠ JsonVal.obj fields)
    (hlast : st.last_error = none) (hdel : env.delivery = none) :
    tryBody st.current_timestamp env =
      (st.current_timestamp, [],
       some (PyErr.attributeError
         ("\'" ++ pyTypeShort v ++ "\' object has no attribute \'get\'"))) ∧
    (∀ m, PyErr.attributeError
        ("\'" ++ pyTypeShort v ++ "\' object has no attribute \'get\'") ≠ PyErr.typeError m) ∧
    loopIter st env =
      (⟨st.current_timestamp,
        some ⟨env.errId, PyErr.attributeError
          ("\'" ++ pyTypeShort v ++ "\' object has no attribute \'get\'")⟩⟩,
       ["Сбой в работе программы: " ++
          ("\'" ++ pyTypeShort v ++ "\' object has no attribute \'get\'")],
       false) := by
  have htry : tryBody st.current_timestamp env =
      (st.current_timestamp, [],
       some (PyErr.attributeError
         ("\'" ++ pyTypeShort v ++ "\' object has no attribute \'get\'"))) := by
    unfold tryBody
    rw [hhttp]
    cases v <;> first | rfl | exact absurd rfl (hv _)
  refine ⟨htry, ?_, ?_⟩
  · intro m hctr
    exact PyErr.noConfusion hctr
  · unfold loopIter
    rw [htry, hlast, hdel]
    rfl

/-- Witness for C10 with a response that decodes to an empty JSON array. -/
theorem C10_non_dict_attribute_error_witness :
    tryBody (JsonVal.int 0)
      ⟨HttpOutcome.response 200 (JsonBody.decoded (JsonVal.arr [])), 9, none, 4⟩ =
      (JsonVal.int 0, [],
       some (PyErr.attributeError
         ("\'" ++ pyTypeShort (JsonVal.arr []) ++ "\' object has no attribute \'get\'"))) ∧
    (∀ m, PyErr.attributeError
        ("\'" ++ pyTypeShort (JsonVal.arr []) ++ "\' object has no attribute \'get\'") ≠
        PyErr.typeError m) ∧
    loopIter ⟨JsonVal.int 0, none⟩
      ⟨HttpOutcome.response 200 (JsonBody.decoded (JsonVal.arr [])), 9, none, 4⟩ =
      (⟨JsonVal.int 0,
        some ⟨4, PyErr.attributeError
          ("\'" ++ pyTypeShort (JsonVal.arr []) ++ "\' object has no attribute \'get\'")⟩⟩,
       ["Сбой в работе программы: " ++
          ("\'" ++ pyTypeShort (JsonVal.arr []) ++ "\' object has no attribute \'get\'")],
       false) :=
  C10_non_dict_attribute_error ⟨JsonVal.int 0, none⟩
    ⟨HttpOutcome.response 200 (JsonBody.decoded (JsonVal.arr [])), 9, none, 4⟩
    (JsonVal.arr []) rfl (fun _ h => nomatch h) rfl rfl

end HomeworkBot
